import Mathlib

/-!
Shallow embedding of the crawl orchestration engine of the `fav-book`
repository (app `twitor`), with theorems checking the natural-language
specification against it.

The embedding translates the Python sources into pure Lean functions:

* `src/apps/twitor/src/services/queue_manager.py` — the Valkey/Redis-backed
  work queue (`QueueManager`).  The Redis list backing the FIFO lane is a
  `List`, the sorted set backing the priority lane is an association list of
  `(member, score)` pairs in insertion order.
* `src/apps/twitor/src/services/error_handler.py` — error classification and
  recovery planning (`ErrorHandler`).
* `src/apps/twitor/src/progress_streamer.py` — the per-session progress
  channel (`ProgressStreamer`); the `asyncio.Queue` is modelled as the log of
  `put` calls in order, with `none`-style close sentinel made explicit.
* `src/apps/twitor/src/checkpoint_manager.py` and
  `src/apps/twitor/src/crawl_service.py` — the checkpoint store and the
  fetch→process→checkpoint loop of `_run_crawl`, together with
  `start_crawl` / `stop_crawl` / `_is_crawl_running`.
* `src/apps/twitor/src/bookmark_processor.py` — bookmark transformation,
  export accumulation and the JSON export artifact.

Machine integers are `Nat`/`Int` (Python integers are unbounded, so no
wrap-around is modelled); fallible operations return `Except`/`Option`;
log statements have no observable effect and are dropped.  Tweet ids are
modelled as `Nat` where the remote source's cursor ordering matters.
-/

namespace Twitor

/-! ## Work queue (`services/queue_manager.py`) -/

/-- Embedding of the dataclass `QueueTask` (queue_manager.py, lines 17-27).
The opaque JSON `payload` is modelled as a `String`; `created_at` is the
ISO timestamp string produced at enqueue time. -/
structure QueueTask where
  task_id : String
  task_type : String
  payload : String
  created_at : String
  retry_count : Nat := 0
  max_retries : Nat := 3
  priority : Int := 0
deriving DecidableEq, Repr

/-- State of the Valkey structures used by one `QueueManager`: the FIFO
lane (Redis list `queue_name`, head first), the priority lane (Redis
sorted set `queue_name:priority`, kept as `(member, score)` pairs in
insertion order), the dead-letter list and the configured capacity. -/
structure QueueState where
  fifo : List QueueTask
  prio : List (QueueTask × Int)
  dead_letter : List QueueTask
  max_queue_size : Nat := 10000
deriving DecidableEq, Repr

/-- Errors surfaced by the queue model.  `queueFull` stands for the plain
`Exception("Queue is full (max size: ...)")` raised in `enqueue`. -/
inductive QueueError where
  | queueFull (max_size : Nat)
deriving DecidableEq, Repr

/-- Redis `ZADD key {member: score}`: update the score when the member is
already present, otherwise insert the member. -/
def zadd (s : List (QueueTask × Int)) (m : QueueTask) (score : Int) :
    List (QueueTask × Int) :=
  if s.any (fun e => e.1 = m) then
    s.map (fun e => if e.1 = m then (m, score) else e)
  else
    s ++ [(m, score)]

/-- Redis `ZPOPMAX`: remove and return an entry carrying the greatest
score.  (For equal scores Redis orders members lexicographically by their
serialized form; no theorem below depends on equal-score order, so ties
here go to the earlier-scanned entry.) -/
def zpopmax (s : List (QueueTask × Int)) :
    Option ((QueueTask × Int) × List (QueueTask × Int)) :=
  match s with
  | [] => none
  | e :: rest =>
      let best := rest.foldl (fun b x => if b.2 < x.2 then x else b) e
      some (best, (e :: rest).erase best)

/-- `QueueManager.enqueue` (queue_manager.py, lines 84-144).  The capacity
check reads `LLEN queue_name`, i.e. only the FIFO lane's depth.  A task
with `priority > 0` is `ZADD`ed to the sorted set with score `-priority`
("negative for descending order"); otherwise it is `RPUSH`ed onto the
FIFO list.  `now` stands for the `datetime.utcnow()` timestamp string used
both for `created_at` and for generating a task id when none is given
(Python's `if not task_id` also treats an empty string as absent). -/
def generatedTaskId (task_type : String) (task_id : Option String)
    (now : String) : String :=
  match task_id with
  | some t => if t = "" then task_type ++ ":" ++ now else t
  | none => task_type ++ ":" ++ now

/-- The `QueueTask` freshly constructed inside `enqueue` (queue_manager.py,
lines 118-125): `retry_count` and `max_retries` are the dataclass
defaults `0` and `3` — `enqueue` has no parameters for them. -/
def enqueuedTask (task_type : String) (payload : String)
    (task_id : Option String) (priority : Int) (now : String) : QueueTask :=
  { task_id := generatedTaskId task_type task_id now,
    task_type := task_type, payload := payload, created_at := now,
    retry_count := 0, max_retries := 3, priority := priority }

def QueueManager.enqueue (st : QueueState) (task_type : String)
    (payload : String) (task_id : Option String) (priority : Int)
    (now : String) : Except QueueError (String × QueueState) :=
  if st.max_queue_size ≤ st.fifo.length then
    .error (.queueFull st.max_queue_size)
  else
    let task := enqueuedTask task_type payload task_id priority now
    if 0 < priority then
      .ok (task.task_id, { st with prio := zadd st.prio task (-priority) })
    else
      .ok (task.task_id, { st with fifo := st.fifo ++ [task] })

/-- `QueueManager.dequeue` (queue_manager.py, lines 146-183): `ZPOPMAX` the
priority lane first; fall back to `LPOP`/`BLPOP` on the FIFO list.  A
blocking wait that times out behaves like the empty non-blocking case, so
both are the same function of the state. -/
def QueueManager.dequeue (st : QueueState) : Option (QueueTask × QueueState) :=
  match zpopmax st.prio with
  | some ((t, _), rest) => some (t, { st with prio := rest })
  | none =>
      match st.fifo with
      | [] => none
      | t :: rest => some (t, { st with fifo := rest })

/-- `QueueManager.size` (queue_manager.py, lines 217-231): `LLEN` of the
FIFO list plus `ZCARD` of the priority sorted set. -/
def QueueManager.size (st : QueueState) : Nat :=
  st.fifo.length + st.prio.length

/-- `QueueManager._move_to_dead_letter` (queue_manager.py, lines 288-302):
`RPUSH` the serialized task onto `queue_name:dead_letter`. -/
def QueueManager.move_to_dead_letter (st : QueueState) (task : QueueTask) :
    QueueState :=
  { st with dead_letter := st.dead_letter ++ [task] }

/-- `QueueManager.retry_task` (queue_manager.py, lines 254-286).  When the
task's `retry_count` has reached `max_retries` the task moves to the
dead-letter lane and the call returns `False`; otherwise the task object's
`retry_count` is incremented in place (the mutated object is the second
component of the result) and the task is re-enqueued under its own id at
priority `max(0, priority - 1)` — note that `enqueue` rebuilds the queued
copy from scratch, so the persisted copy carries `retry_count = 0`. -/
def QueueManager.retry_task (st : QueueState) (task : QueueTask)
    (now : String) : Except QueueError (Bool × QueueTask × QueueState) :=
  if task.max_retries ≤ task.retry_count then
    .ok (false, task, QueueManager.move_to_dead_letter st task)
  else
    let task' := { task with retry_count := task.retry_count + 1 }
    let new_priority := max 0 (task.priority - 1)
    match QueueManager.enqueue st task.task_type task.payload
        (some task.task_id) new_priority now with
    | .error e => .error e
    | .ok (_, st') => .ok (true, task', st')

/-- Iterated `retry_task`: the caller keeps handing the task object back
(with the `retry_count` the previous call left in it), as a worker loop
that keeps failing the same task would.  Returns the final queue state,
the final task object, the number of calls that re-enqueued, and the
number of calls that dead-lettered. -/
def retryCalls (st : QueueState) (task : QueueTask) (now : String) :
    Nat → Except QueueError (QueueState × QueueTask × Nat × Nat)
  | 0 => .ok (st, task, 0, 0)
  | n + 1 =>
      match QueueManager.retry_task st task now with
      | .error e => .error e
      | .ok (requeued, task', st') =>
          match retryCalls st' task' now n with
          | .error e => .error e
          | .ok (stf, tf, re, dl) =>
              .ok (stf, tf, (if requeued then 1 else 0) + re,
                   (if requeued then 0 else 1) + dl)

/-! ## Error classifier and recovery planner (`services/error_handler.py`) -/

/-- Closed model of the Python exception values reaching
`ErrorHandler.classify_error`: the `twitter_client` error types, the
error-handler's own types, the builtins named in the `isinstance` chains,
and a constructor for anything else.  `rateLimitError` carries
`retry_after_seconds`, whose Python constructor default is 900
(twitter_client.py, line 63). -/
inductive PyError where
  | authenticationError (msg : String)
  | rateLimitError (msg : String) (retry_after_seconds : Nat)
  | networkError (msg : String)
  | validationError (msg : String)
  | valueError (msg : String)
  | typeError (msg : String)
  | databaseError (msg : String)
  | fatalError (msg : String)
  | memoryError
  | osError
  | systemError
  | otherError (type_name : String)
deriving DecidableEq, Repr

/-- `ErrorCategory` (error_handler.py, lines 15-23). -/
inductive ErrorCategory where
  | auth | rate_limit | network | validation | database | fatal
deriving DecidableEq, Repr

/-- `ErrorAction` (error_handler.py, lines 26-32). -/
inductive ErrorAction where
  | abort | retry | skip | pause
deriving DecidableEq, Repr

/-- `ErrorContext` (error_handler.py, lines 35-44). -/
structure ErrorContext where
  error : PyError
  retry_count : Nat := 0
  last_processed_id : Option String := none
  session_id : Option String := none
  user_id : Option String := none
  operation : Option String := none
deriving DecidableEq, Repr

/-- `ErrorRecoveryStrategy` (error_handler.py, lines 47-54).  The `delay`
is a Python float holding whole seconds or `initial_backoff * 2**n`;
it is modelled exactly as a rational.  The human-readable `message`
(log text only, inspected by no caller) is not modelled. -/
structure ErrorRecoveryStrategy where
  action : ErrorAction
  delay : ℚ := 0
  should_save_checkpoint : Bool := false
deriving DecidableEq, Repr

/-- Configuration of `ErrorHandler.__init__` (error_handler.py, lines
78-94); the attached checkpoint manager matters only to side effects of
the fatal handler, not to the returned strategy, and is threaded
separately where needed. -/
structure ErrorHandler where
  max_retries : Nat := 5
  initial_backoff : ℚ := 1
deriving DecidableEq, Repr

/-- `ErrorHandler.classify_error` (error_handler.py, lines 96-140): the
ordered `isinstance` chain, with `fatal` as the default for anything
unrecognized. -/
def ErrorHandler.classify_error : PyError → ErrorCategory
  | .authenticationError _ => .auth
  | .rateLimitError _ _ => .rate_limit
  | .networkError _ => .network
  | .validationError _ => .validation
  | .valueError _ => .validation
  | .typeError _ => .validation
  | .databaseError _ => .database
  | .fatalError _ => .fatal
  | .memoryError => .fatal
  | .osError => .fatal
  | .systemError => .fatal
  | .otherError _ => .fatal

/-- `ErrorHandler.handle_error` (error_handler.py, lines 142-184) together
with the `_handle_*_error` helpers (lines 186-346), as a function from the
error context to the returned strategy.  The rate-limit branch reads
`retry_after_seconds` from the error when it is a `RateLimitError`,
falling back to 900 seconds; the network branch retries with backoff
`initial_backoff * 2 ** retry_count` while `retry_count < max_retries`
and aborts (checkpoint save required) beyond the cap. -/
def ErrorHandler.handle_error (h : ErrorHandler) (ctx : ErrorContext) :
    ErrorRecoveryStrategy :=
  match ErrorHandler.classify_error ctx.error with
  | .auth =>
      { action := .abort, delay := 0, should_save_checkpoint := false }
  | .rate_limit =>
      let retry_after : Nat :=
        match ctx.error with
        | .rateLimitError _ r => r
        | _ => 900
      { action := .pause, delay := retry_after,
        should_save_checkpoint := true }
  | .network =>
      if ctx.retry_count < h.max_retries then
        { action := .retry,
          delay := h.initial_backoff * 2 ^ ctx.retry_count,
          should_save_checkpoint := false }
      else
        { action := .abort, delay := 0, should_save_checkpoint := true }
  | .validation =>
      { action := .skip, delay := 0, should_save_checkpoint := false }
  | .database =>
      { action := .skip, delay := 0, should_save_checkpoint := false }
  | .fatal =>
      { action := .abort, delay := 0, should_save_checkpoint := true }

/-- The per-category recovery policy table transcribed from the
specification's words (spec §4.2, "Per-category recovery policy"), to be
compared with the implementation's `handle_error`:
`authentication` aborts with no checkpoint write; `rate_limit` pauses for
the duration taken from the error (default 900 s) with a checkpoint save;
`network` retries with backoff `initial_backoff * 2^retry_count` capped at
`max_retries` attempts and aborts with a checkpoint save beyond the cap;
`validation` and `database` skip with no checkpoint write; `fatal`
(including anything unrecognized) aborts with a checkpoint save. -/
def specRecoveryPolicy (max_retries : Nat) (initial_backoff : ℚ)
    (ctx : ErrorContext) : ErrorRecoveryStrategy :=
  match ErrorHandler.classify_error ctx.error with
  | .auth => { action := .abort, should_save_checkpoint := false }
  | .rate_limit =>
      { action := .pause,
        delay := match ctx.error with
          | .rateLimitError _ r => (r : ℚ)
          | _ => 900,
        should_save_checkpoint := true }
  | .network =>
      if ctx.retry_count < max_retries then
        { action := .retry,
          delay := initial_backoff * 2 ^ ctx.retry_count,
          should_save_checkpoint := false }
      else
        { action := .abort, should_save_checkpoint := true }
  | .validation => { action := .skip, should_save_checkpoint := false }
  | .database => { action := .skip, should_save_checkpoint := false }
  | .fatal => { action := .abort, should_save_checkpoint := true }

/-! ## Progress stream (`progress_streamer.py`) -/

/-- Embedding of the pydantic model `CrawlProgressUpdate` (schemas.py):
one event on a session's progress channel.  The `currentBookmark` dict is
an association list of string fields (`send_progress` passes tweet id,
truncated text and author; `send_complete` passes `{"filePath": ...}`). -/
structure ProgressEvent where
  type : String
  bookmarksProcessed : Nat
  currentBookmark : Option (List (String × String)) := none
  summarizationStatus : Option String := none
  error : Option String := none
deriving DecidableEq, Repr

/-- One entry of the streamer's `asyncio.Queue`: a queued event, or the
`None` close sentinel pushed by `close()`. -/
inductive QEntry where
  | event (e : ProgressEvent)
  | sentinel
deriving DecidableEq, Repr

/-- `ProgressStreamer` (progress_streamer.py, lines 16-133).  The
`asyncio.Queue` is modelled as the ordered log of `put` calls; the single
consumer of `stream_events` drains it in this order. -/
structure ProgressStreamer where
  session_id : String
  queue : List QEntry := []
  closed : Bool := false
deriving DecidableEq, Repr

/-- The `CrawlProgressUpdate` built by `send_progress` (lines 49-55). -/
def progressEvent (bookmarks_processed : Nat)
    (current_bookmark : Option (List (String × String)))
    (summarization_status : Option String) : ProgressEvent :=
  { type := "progress", bookmarksProcessed := bookmarks_processed,
    currentBookmark := current_bookmark,
    summarizationStatus := summarization_status, error := none }

/-- The `CrawlProgressUpdate` built by `send_complete` (lines 78-83): the
`currentBookmark` slot holds the export path when present. -/
def completeEvent (total_processed : Nat) (file_path : Option String) :
    ProgressEvent :=
  { type := "complete", bookmarksProcessed := total_processed,
    currentBookmark := file_path.map (fun p => [("filePath", p)]),
    summarizationStatus := none, error := none }

/-- The `CrawlProgressUpdate` built by `send_error` (lines 102-107): its
`bookmarksProcessed` field is the literal `0`. -/
def errorEvent (error : String) : ProgressEvent :=
  { type := "error", bookmarksProcessed := 0, currentBookmark := none,
    summarizationStatus := none, error := some error }

/-- `ProgressStreamer.close` (lines 127-133): mark closed and push the
`None` sentinel; a second call is a no-op. -/
def ProgressStreamer.close (s : ProgressStreamer) : ProgressStreamer :=
  if s.closed then s
  else { s with closed := true, queue := s.queue ++ [.sentinel] }

/-- `ProgressStreamer.send_progress` (lines 31-60): a no-op (logged, not
an error) when the streamer is closed; otherwise queue a `progress`
event. -/
def ProgressStreamer.send_progress (s : ProgressStreamer)
    (bookmarks_processed : Nat) (current_bookmark : Option (List (String × String)))
    (summarization_status : Option String) : ProgressStreamer :=
  if s.closed then s
  else
    { s with queue := s.queue ++
        [.event (progressEvent bookmarks_processed current_bookmark
          summarization_status)] }

/-- `ProgressStreamer.send_complete` (lines 62-89): a no-op when closed;
otherwise queue a `complete` event and then close the stream. -/
def ProgressStreamer.send_complete (s : ProgressStreamer)
    (total_processed : Nat) (file_path : Option String) : ProgressStreamer :=
  if s.closed then s
  else
    ProgressStreamer.close
      { s with queue := s.queue ++
          [.event (completeEvent total_processed file_path)] }

/-- `ProgressStreamer.send_error` (lines 91-113): a no-op when closed;
otherwise queue an `error` event and then close the stream. -/
def ProgressStreamer.send_error (s : ProgressStreamer) (error : String) :
    ProgressStreamer :=
  if s.closed then s
  else
    ProgressStreamer.close
      { s with queue := s.queue ++ [.event (errorEvent error)] }

/-- Events a consumer of `stream_events` (lines 135-185) receives: the
queue entries before the first close sentinel, in queue order. -/
def deliveredEvents (s : ProgressStreamer) : List ProgressEvent :=
  (s.queue.takeWhile (fun q => q ≠ QEntry.sentinel)).filterMap
    (fun q => match q with | .event e => some e | .sentinel => none)

/-- A producer-side operation on a session's progress channel. -/
inductive StreamOp where
  | progress (n : Nat) (cur : Option (List (String × String))) (sum : Option String)
  | complete (total : Nat) (file_path : Option String)
  | error (msg : String)
  | close
deriving DecidableEq, Repr

/-- Apply one producer operation to the streamer. -/
def applyOp (s : ProgressStreamer) : StreamOp → ProgressStreamer
  | .progress n cur sum => ProgressStreamer.send_progress s n cur sum
  | .complete total fp => ProgressStreamer.send_complete s total fp
  | .error msg => ProgressStreamer.send_error s msg
  | .close => ProgressStreamer.close s

/-- Run a sequence of producer operations. -/
def runOps (s : ProgressStreamer) (ops : List StreamOp) : ProgressStreamer :=
  ops.foldl applyOp s

/-- Specification-side view of the channel: the events a trace of sends
generates, threading only the open/closed flag — sends while open emit in
order, `complete`/`error` emit and close the channel, `close` closes it,
and nothing is emitted once closed. -/
def acceptedEvents : Bool → List StreamOp → List ProgressEvent
  | _, [] => []
  | true, _ :: rest => acceptedEvents true rest
  | false, .progress n cur sum :: rest =>
      progressEvent n cur sum :: acceptedEvents false rest
  | false, .complete total fp :: _ => [completeEvent total fp]
  | false, .error msg :: _ => [errorEvent msg]
  | false, .close :: _ => []

/-! ## Checkpoint store and crawl loop (`checkpoint_manager.py`, `crawl_service.py`) -/

/-- Row of `crawler.twitter_crawl_checkpoint` (models.py), one per user.
Tweet ids are `Nat` — the remote source's cursor ordering.  Wall-clock
columns (`last_crawled_at`, `created_at`, `updated_at`) carry no logic and
are not modelled. -/
structure CheckpointRow where
  last_tweet_id : Nat
  bookmarks_count : Nat
deriving DecidableEq, Repr

/-- `CheckpointManager.save_checkpoint` (checkpoint_manager.py, lines
37-72) applied to the user's persisted row: upsert — update
`last_tweet_id` always and `bookmarks_count` only when a count is
provided; on first save create the row with `bookmarks_count or 0`. -/
def saveCheckpointRow (row : Option CheckpointRow) (tweet_id : Nat)
    (bookmarks_count : Option Nat) : CheckpointRow :=
  match row with
  | some existing =>
      { existing with
        last_tweet_id := tweet_id,
        bookmarks_count := bookmarks_count.getD existing.bookmarks_count }
  | none =>
      { last_tweet_id := tweet_id,
        bookmarks_count := bookmarks_count.getD 0 }

/-- One bookmark pulled from the remote stream in `_run_crawl`, paired
with the outcome of `process_bookmark` on it: `succeeds` is
`result.success`.  (A failed result is routed through the error handler,
which classifies the wrapped `DatabaseError` as `database` and returns
`skip`, so a failed item is skipped and the loop continues; the item
processor itself never raises — it catches all exceptions and returns a
failure result.) -/
structure CrawlItem where
  tweet_id : Nat
  succeeds : Bool
deriving DecidableEq, Repr

/-- In-flight state of one `_run_crawl` invocation: the local counters
`bookmarks_processed` and `last_tweet_id`, the user's persisted
checkpoint row, and the log of `save_checkpoint` calls issued
(`(tweet_id, bookmarks_count?)` in order). -/
structure CrawlRunState where
  bookmarks_processed : Nat
  last_tweet_id : Option Nat
  checkpoint : Option CheckpointRow
  saves : List (Nat × Option Nat)
deriving DecidableEq, Repr

/-- Issue one `save_checkpoint` call from the crawl loop. -/
def crawlSave (s : CrawlRunState) (tweet_id : Nat)
    (bookmarks_count : Option Nat) : CrawlRunState :=
  { s with
    checkpoint := some (saveCheckpointRow s.checkpoint tweet_id bookmarks_count),
    saves := s.saves ++ [(tweet_id, bookmarks_count)] }

/-- One iteration of the `async for bookmark in ...` loop of `_run_crawl`
(crawl_service.py, lines 283-401): on success increment the counter,
remember the tweet id, and save a checkpoint every 10th processed
bookmark; on failure the error handler's `skip` leaves the state
unchanged. -/
def crawlStep (s : CrawlRunState) (it : CrawlItem) : CrawlRunState :=
  if it.succeeds then
    let processed := s.bookmarks_processed + 1
    let s' := { s with bookmarks_processed := processed,
                       last_tweet_id := some it.tweet_id }
    if processed % 10 = 0 then crawlSave s' it.tweet_id (some processed)
    else s'
  else s

/-- State at the top of `_run_crawl` after loading the checkpoint
(crawl_service.py, lines 264-281): counters reset, persisted row as
found. -/
def initialRunState (ck0 : Option CheckpointRow) : CrawlRunState :=
  { bookmarks_processed := 0, last_tweet_id := none,
    checkpoint := ck0, saves := [] }

/-- Final checkpoint on the success path (crawl_service.py, lines
403-408): saved only when some item succeeded, with the total count. -/
def finishCompleted (s : CrawlRunState) : CrawlRunState :=
  match s.last_tweet_id with
  | some t => crawlSave s t (some s.bookmarks_processed)
  | none => s

/-- Checkpoint on the `asyncio.CancelledError` path (crawl_service.py,
lines 441-452): saved only when some item succeeded, without a count. -/
def finishCancelled (s : CrawlRunState) : CrawlRunState :=
  match s.last_tweet_id with
  | some t => crawlSave s t none
  | none => s

/-- How a session terminated: the page stream was exhausted
(`completed`), or `stop_crawl` cancelled the task after `k` items had
been pulled from the stream (`stopped k` — cancellation is cooperative,
observed between loop iterations). -/
inductive SessionEnd where
  | completed
  | stopped (k : Nat)
deriving DecidableEq, Repr

/-- A whole crawl session over the outcome sequence `items`, from the
persisted checkpoint `ck0`, ending as `e`. -/
def sessionRun (items : List CrawlItem) (ck0 : Option CheckpointRow) :
    SessionEnd → CrawlRunState
  | .completed => finishCompleted (items.foldl crawlStep (initialRunState ck0))
  | .stopped k =>
      finishCancelled ((items.take k).foldl crawlStep (initialRunState ck0))

/-- The succession of values taken by the user's persisted checkpoint
cursor during a session: the pre-existing cursor (if any) followed by the
cursor of each `save_checkpoint` call in order. -/
def cursorTrace (ck0 : Option CheckpointRow) (s : CrawlRunState) : List Nat :=
  (ck0.map CheckpointRow.last_tweet_id).toList ++ s.saves.map Prod.fst

/-- Tweet ids of the successfully processed items, in stream order. -/
def successIds (items : List CrawlItem) : List Nat :=
  (items.filter (fun it => it.succeeds)).map CrawlItem.tweet_id

/-- The resume cut of `TwitterClient.get_bookmarks` (twitter_client.py,
lines 196-204): tweets are yielded in stream order until the first whose
id is `<= since_id`, at which point the generator returns ("Reached
checkpoint tweet, stopping"; with no `since_id` the whole stream is
yielded).  This guard only terminates usefully on a newest-first
(descending-id) stream — on an ascending stream a resumed crawl stops at
the very first tweet and yields nothing — so newest-first is the stream
order the client presupposes. -/
def getBookmarksStream (timeline : List Nat) (since_id : Option Nat) :
    List Nat :=
  match since_id with
  | none => timeline
  | some sid => timeline.takeWhile (fun id => sid < id)

/-! ## Session lifecycle (`crawl_service.py`) -/

/-- Row of `crawler.crawl_session` (models.py).  Timestamps are abstract
`Nat` instants. -/
structure SessionRow where
  session_id : String
  user_id : String
  status : String
  bookmarks_processed : Nat
  started_at : Nat
  completed_at : Option Nat
  error_message : Option String
  direct_import : Bool
  output_file_path : Option String
deriving DecidableEq, Repr

/-- In-memory / persisted state a `CrawlService` instance sees: the
`crawl_session` table and the `_active_crawls` registry, the latter as
`(session_id, task.done())` pairs. -/
structure CrawlServiceState where
  rows : List SessionRow
  active : List (String × Bool)
deriving DecidableEq, Repr

/-- `CrawlStartRequest` (schemas.py). -/
structure CrawlStartRequest where
  userId : String
  directImport : Bool := true
  enableSummarization : Bool := false
deriving DecidableEq, Repr

/-- `CrawlStartResponse` (schemas.py). -/
structure CrawlStartResponse where
  sessionId : String
  status : String := "started"
deriving DecidableEq, Repr

/-- `CrawlStopResponse` (schemas.py). -/
structure CrawlStopResponse where
  status : String
  bookmarksProcessed : Nat
deriving DecidableEq, Repr

/-- The `CrawlService` exception types (crawl_service.py, lines 40-55):
`RequestValidationError`, `ConcurrentCrawlError`, and the base
`CrawlServiceError` raised by `stop_crawl` for an unknown session. -/
inductive CrawlServiceErr where
  | requestValidation
  | concurrentCrawl
  | notFound (session_id : String)
deriving DecidableEq, Repr

/-- The `running` session row of a user, as `scalar_one_or_none` returns
it (callers below assume at most one such row, the data-model
invariant). -/
def runningRowFor (rows : List SessionRow) (user_id : String) :
    Option SessionRow :=
  rows.find? (fun r => r.user_id == user_id && r.status == "running")

/-- Whether a session id has a live (present and not done) task in
`_active_crawls`. -/
def liveInMemory (active : List (String × Bool)) (session_id : String) :
    Bool :=
  match active.find? (fun a => a.1 == session_id) with
  | some (_, done) => !done
  | none => false

/-- `CrawlService._is_crawl_running` (crawl_service.py, lines 190-222):
a persisted `running` row whose task is live in memory means a crawl is
running; a `running` row with no live task is stale and is marked
`failed` (with a completion timestamp `now` and the error message
`"Session was interrupted"`) before answering `False`. -/
def CrawlService.is_crawl_running (st : CrawlServiceState)
    (user_id : String) (now : Nat) : Bool × CrawlServiceState :=
  match runningRowFor st.rows user_id with
  | none => (false, st)
  | some r =>
      if liveInMemory st.active r.session_id then (true, st)
      else
        (false,
         { st with rows := st.rows.map (fun r' =>
             if r'.session_id == r.session_id then
               { r' with status := "failed", completed_at := some now,
                         error_message := some "Session was interrupted" }
             else r') })

/-- Python's `str.strip()` with no arguments: drop leading and trailing
whitespace. -/
def pyStrip (s : String) : String :=
  String.mk
    (((s.data.dropWhile Char.isWhitespace).reverse.dropWhile
        Char.isWhitespace).reverse)

/-- `CrawlService.start_crawl` (crawl_service.py, lines 74-142):
validate the user id (Python's `if not request.userId or not
request.userId.strip()` — both an empty and a whitespace-only id strip to
the empty string), run the concurrency check, then persist a new
`running` session row and register the background task.  `new_sid` stands
for the generated `uuid4` and `now` for `datetime.utcnow()`. -/
def CrawlService.start_crawl (st : CrawlServiceState)
    (request : CrawlStartRequest) (new_sid : String) (now : Nat) :
    Except CrawlServiceErr (CrawlStartResponse × CrawlServiceState) :=
  if pyStrip request.userId = "" then .error .requestValidation
  else
    match CrawlService.is_crawl_running st (pyStrip request.userId) now with
    | (true, _) => .error .concurrentCrawl
    | (false, st') =>
        .ok ({ sessionId := new_sid, status := "started" },
             { rows := st'.rows ++
                 [{ session_id := new_sid, user_id := pyStrip request.userId,
                    status := "running", bookmarks_processed := 0,
                    started_at := now, completed_at := none,
                    error_message := none,
                    direct_import := request.directImport,
                    output_file_path := none }],
               active := st'.active ++ [(new_sid, false)] })

/-- Effect of the cancelled `_run_crawl` task on its session row: the
`except asyncio.CancelledError` handler (crawl_service.py, lines 441-452)
sends an error event and saves a checkpoint but never writes the session
row — `bookmarks_processed` is only written on the successful-completion
path (line 426). -/
def rowAfterCancelledRun (r : SessionRow) : SessionRow := r

/-- `CrawlService.stop_crawl` (crawl_service.py, lines 144-188): fail
with a not-found error when the session id has no task in
`_active_crawls`; otherwise cancel the task, await its unwinding (the
session row is then `rowAfterCancelledRun` of what it was), mark the row
`stopped` with completion time `now`, and answer with the row's
`bookmarks_processed` (or 0 when the row is missing). -/
def CrawlService.stop_crawl (st : CrawlServiceState) (session_id : String)
    (now : Nat) :
    Except CrawlServiceErr (CrawlStopResponse × CrawlServiceState) :=
  match st.active.find? (fun a => a.1 == session_id) with
  | none => .error (.notFound session_id)
  | some _ =>
      match st.rows.find? (fun r => r.session_id == session_id) with
      | some r =>
          let r := rowAfterCancelledRun r
          .ok ({ status := "stopped",
                 bookmarksProcessed := r.bookmarks_processed },
               { st with rows := st.rows.map (fun r' =>
                   if r'.session_id == session_id then
                     { r' with status := "stopped", completed_at := some now }
                   else r') })
      | none =>
          .ok ({ status := "stopped", bookmarksProcessed := 0 }, st)

/-! ## Bookmark processing and export (`bookmark_processor.py`) -/

/-- A media attachment of a Twitter bookmark (`TwitterMedia` in
`twitter_client.py`): the fields `_transform_bookmark` reads. -/
structure TwitterMedia where
  media_type : String
  url : String
  thumbnail_url : Option String
deriving DecidableEq, Repr

/-- A bookmark pulled from the remote source (`TwitterBookmark` in
`twitter_client.py`): the fields `_transform_bookmark` reads.
`created_at` is the already-formatted ISO timestamp string and `metadata`
the opaque serialized metadata dict. -/
structure TwitterBookmark where
  tweet_id : String
  tweet_url : String
  text : String
  author_name : String
  author_username : String
  author_profile_url : String
  created_at : String
  metadata : String
  media : List TwitterMedia
deriving DecidableEq, Repr

/-- One media entry of the canonical application record. -/
structure MediaRecord where
  type : String
  url : String
  thumbnailUrl : Option String
deriving DecidableEq, Repr

/-- The canonical application-format record `_transform_bookmark` builds
(bookmark_processor.py, lines 173-220); the `media` key is only present
when the bookmark has media. -/
structure BookmarkRecord where
  platform : String
  postId : String
  postUrl : String
  content : String
  authorName : String
  authorUsername : String
  authorProfileUrl : String
  createdAt : String
  metadata : String
  media : Option (List MediaRecord)
deriving DecidableEq, Repr

/-- Media-type mapping of `_transform_bookmark` (lines 185-193): upcase,
then `PHOTO`/`IMAGE` → `IMAGE`, `VIDEO`/`ANIMATED_GIF` → `VIDEO`,
anything else → `LINK`. -/
def transformMedia (m : TwitterMedia) : MediaRecord :=
  let media_type := m.media_type.toUpper
  let media_type :=
    if media_type = "PHOTO" ∨ media_type = "IMAGE" then "IMAGE"
    else if media_type = "VIDEO" ∨ media_type = "ANIMATED_GIF" then "VIDEO"
    else "LINK"
  { type := media_type, url := m.url, thumbnailUrl := m.thumbnail_url }

/-- `BookmarkProcessor._transform_bookmark` (lines 173-220). -/
def transform_bookmark (b : TwitterBookmark) : BookmarkRecord :=
  let media := b.media.map transformMedia
  { platform := "TWITTER",
    postId := b.tweet_id,
    postUrl := b.tweet_url,
    content := b.text,
    authorName := b.author_name,
    authorUsername := b.author_username,
    authorProfileUrl := b.author_profile_url,
    createdAt := b.created_at,
    metadata := b.metadata,
    media := if media.isEmpty then none else some media }

/-- `BookmarkProcessor.process_bookmark` in export mode
(`direct_import = False`, lines 144-151): transform, append to
`accumulated_bookmarks`, succeed.  The whole export run over a bookmark
stream is the fold of this step. -/
def exportAccumulate (acc : List BookmarkRecord) (b : TwitterBookmark) :
    List BookmarkRecord :=
  acc ++ [transform_bookmark b]

/-- Accumulated records after an export-mode session over `bs`. -/
def exportRun (bs : List TwitterBookmark) : List BookmarkRecord :=
  bs.foldl exportAccumulate []

/-- JSON values, for the export artifact written by `save_to_file`
(`json.dump`) and read back by a consumer (`json.load`); objects keep
their key insertion order, as Python dicts do. -/
inductive JValue where
  | str (s : String)
  | num (n : Nat)
  | arr (items : List JValue)
  | obj (fields : List (String × JValue))
  | null
deriving Repr

/-- JSON encoding of one media entry, mirroring the dict built at
bookmark_processor.py lines 195-201. -/
def encodeMedia (m : MediaRecord) : JValue :=
  .obj [("type", .str m.type), ("url", .str m.url),
        ("thumbnailUrl", match m.thumbnailUrl with
                         | some t => .str t
                         | none => .null)]

/-- JSON encoding of one canonical record, mirroring the dict built at
bookmark_processor.py lines 203-220 (the `media` key added only when
media is present). -/
def encodeRecord (r : BookmarkRecord) : JValue :=
  .obj ([("platform", .str r.platform),
         ("postId", .str r.postId),
         ("postUrl", .str r.postUrl),
         ("content", .str r.content),
         ("authorName", .str r.authorName),
         ("authorUsername", .str r.authorUsername),
         ("authorProfileUrl", .str r.authorProfileUrl),
         ("createdAt", .str r.createdAt),
         ("metadata", .str r.metadata)] ++
        (match r.media with
         | some ms => [("media", .arr (ms.map encodeMedia))]
         | none => []))

/-- `BookmarkProcessor.save_to_file` (lines 343-374): the JSON document
written to the export artifact — platform tag, the accumulated records in
order, and the recorded total. -/
def save_to_file (acc : List BookmarkRecord) : JValue :=
  .obj [("platform", .str "TWITTER"),
        ("bookmarks", .arr (acc.map encodeRecord)),
        ("total", .num acc.length)]

/-- Read a string field of a JSON object. -/
def jString? (fields : List (String × JValue)) (key : String) :
    Option String :=
  match fields.lookup key with
  | some (.str s) => some s
  | _ => none

/-- Decode one media entry back from JSON. -/
def decodeMedia (j : JValue) : Option MediaRecord :=
  match j with
  | .obj fields =>
      match jString? fields "type", jString? fields "url" with
      | some t, some u =>
          match fields.lookup "thumbnailUrl" with
          | some (.str s) => some { type := t, url := u, thumbnailUrl := some s }
          | some .null => some { type := t, url := u, thumbnailUrl := none }
          | _ => none
      | _, _ => none
  | _ => none

/-- Decode one canonical record back from JSON. -/
def decodeRecord (j : JValue) : Option BookmarkRecord :=
  match j with
  | .obj fields =>
      match jString? fields "platform", jString? fields "postId",
            jString? fields "postUrl", jString? fields "content",
            jString? fields "authorName", jString? fields "authorUsername",
            jString? fields "authorProfileUrl", jString? fields "createdAt",
            jString? fields "metadata" with
      | some pf, some pid, some pu, some c, some an, some aun, some apu,
        some ca, some md =>
          match fields.lookup "media" with
          | some (.arr ms) =>
              match ms.mapM decodeMedia with
              | some medias =>
                  some { platform := pf, postId := pid, postUrl := pu,
                         content := c, authorName := an,
                         authorUsername := aun, authorProfileUrl := apu,
                         createdAt := ca, metadata := md,
                         media := some medias }
              | none => none
          | none =>
              some { platform := pf, postId := pid, postUrl := pu,
                     content := c, authorName := an, authorUsername := aun,
                     authorProfileUrl := apu, createdAt := ca,
                     metadata := md, media := none }
          | some _ => none
      | _, _, _, _, _, _, _, _, _ => none
  | _ => none

/-- Re-read the export artifact: the record list and the recorded
total. -/
def readArtifact (j : JValue) : Option (List BookmarkRecord × Nat) :=
  match j with
  | .obj fields =>
      match fields.lookup "bookmarks", fields.lookup "total" with
      | some (.arr items), some (.num total) =>
          match items.mapM decodeRecord with
          | some records => some (records, total)
          | none => none
      | _, _ => none
  | _ => none

/-! ## Theorems -/

/-- C5: for every `ErrorContext`, `handle_error` returns exactly the
strategy of the per-category policy table — authentication: abort, no
checkpoint save; rate limit: pause for the delay taken from the error
(default 900 s), checkpoint save required; network: retry with delay
`initial_backoff * 2^retry_count` while `retry_count < max_retries`
(default 5) and abort with checkpoint save beyond the cap; validation and
database: skip, no checkpoint save; fatal and unrecognized: abort with
checkpoint save. -/
theorem C5_handle_error_matches_policy_table (h : ErrorHandler)
    (ctx : ErrorContext) :
    ErrorHandler.handle_error h ctx =
      specRecoveryPolicy h.max_retries h.initial_backoff ctx ∧
    ErrorHandler.classify_error (.otherError "SomeUnknownException") =
      .fatal ∧
    ({} : ErrorHandler).max_retries = 5 := by
  refine ⟨?_, rfl, rfl⟩
  cases hctx : ctx.error <;>
    simp [ErrorHandler.handle_error, specRecoveryPolicy,
      ErrorHandler.classify_error, hctx]

/-- C10: `send_error` on an open channel queues an error event whose
`bookmarksProcessed` field is the literal 0 — whatever the session
actually processed — and then closes the channel. -/
theorem C10_send_error_reports_zero_processed (s : ProgressStreamer)
    (msg : String) (h : s.closed = false) :
    ProgressStreamer.send_error s msg =
      { s with closed := true,
               queue := s.queue ++
                 [.event { type := "error", bookmarksProcessed := 0,
                           currentBookmark := none,
                           summarizationStatus := none,
                           error := some msg },
                  .sentinel] } := by
  simp [ProgressStreamer.send_error, ProgressStreamer.close, errorEvent, h]

/-- Witness for C10: a session that has processed (and reported) 41 items
still sends `bookmarksProcessed = 0` on its error event. -/
theorem C10_send_error_reports_zero_processed_witness :
    ProgressStreamer.send_error
        { session_id := "s",
          queue := [.event { type := "progress", bookmarksProcessed := 41 }],
          closed := false } "boom" =
      { session_id := "s",
        queue := [.event { type := "progress", bookmarksProcessed := 41 },
                  .event { type := "error", bookmarksProcessed := 0,
                           currentBookmark := none,
                           summarizationStatus := none,
                           error := some "boom" },
                  .sentinel],
        closed := true } :=
  C10_send_error_reports_zero_processed
    { session_id := "s",
      queue := [.event { type := "progress", bookmarksProcessed := 41 }],
      closed := false } "boom" rfl

/-- C3 (failing-input evaluation): enqueuing a priority-1 task and then a
priority-2 task and dequeuing serves the priority-1 task first — the
sorted-set scores are the negated priorities and `dequeue` pops with
`ZPOPMAX`, so the *lowest* priority in the lane is served first,
contradicting the claim (and the code's own `Higher priority = processed
first` documentation).  The priority lane is still consulted before the
FIFO lane, and the priority-2 task is left behind. -/
theorem C3_dequeue_serves_lowest_priority_first :
    ((do
        let r1 ← QueueManager.enqueue
          { fifo := [], prio := [], dead_letter := [], max_queue_size := 10000 }
          "job" "payloadA" (some "tLow") 1 "t0"
        let r2 ← QueueManager.enqueue r1.2 "job" "payloadB" (some "tHigh") 2 "t1"
        pure ((QueueManager.dequeue r2.2).map
          (fun p => (p.1.task_id, p.1.priority,
                     p.2.prio.map (fun e => e.1.priority))))) :
      Except QueueError (Option (String × Int × List Int))) =
      .ok (some ("tLow", 1, [2])) := by
  rfl

/-- C7 (counterexample): a queue whose single lane entry sits in the
priority lane is at its configured capacity (`size = max_queue_size = 1`),
yet a further `enqueue` succeeds and returns the new task id instead of
rejecting — the capacity check reads only the FIFO lane's depth. -/
theorem C7_counterexample_priority_lane_not_counted :
    ((do
        let r1 ← QueueManager.enqueue
          { fifo := [], prio := [], dead_letter := [], max_queue_size := 1 }
          "job" "payloadA" (some "t1") 1 "t0"
        let r2 ← QueueManager.enqueue r1.2 "job" "payloadB" (some "t2") 0 "t1"
        pure (QueueManager.size r1.2, r1.2.max_queue_size, r2.1)) :
      Except QueueError (Nat × Nat × String)) = .ok (1, 1, "t2") := by
  rfl

lemma zadd_mem_fst (s : List (QueueTask × Int)) (m : QueueTask)
    (score : Int) : m ∈ (zadd s m score).map Prod.fst := by
  unfold zadd
  split
  · rename_i h
    rcases List.any_eq_true.1 h with ⟨e, he, hem⟩
    refine List.mem_map.2 ⟨(m, score), ?_, rfl⟩
    refine List.mem_map.2 ⟨e, he, ?_⟩
    simp only [decide_eq_true_eq] at hem
    simp [hem]
  · simp

lemma enqueue_isOk_iff (st : QueueState) (tt pl : String)
    (tid : Option String) (p : Int) (now : String) :
    (QueueManager.enqueue st tt pl tid p now).isOk ↔
      st.fifo.length < st.max_queue_size := by
  unfold QueueManager.enqueue
  split
  · rename_i h
    simp [Except.isOk, Except.toBool]
    omega
  · rename_i h
    constructor
    · intro _; omega
    · intro _
      split <;> simp [Except.isOk, Except.toBool]

/-- C7 (amended): `enqueue` rejects with the queue-full error exactly when
the FIFO lane's depth has reached the configured capacity — the priority
lane's depth is not counted — and this rejection is independent of which
lane the new task would enter; below that threshold it enqueues the task
(priority lane when `priority > 0`, FIFO lane otherwise) and returns its
task id. -/
theorem C7_enqueue_capacity_counts_fifo_lane_only (st : QueueState)
    (tt pl : String) (tid : Option String) (p : Int) (now : String) :
    ((QueueManager.enqueue st tt pl tid p now).isOk ↔
      st.fifo.length < st.max_queue_size) ∧
    (¬ (QueueManager.enqueue st tt pl tid p now).isOk →
      QueueManager.enqueue st tt pl tid p now =
        .error (.queueFull st.max_queue_size)) ∧
    (st.fifo.length < st.max_queue_size → 0 < p →
      ∃ st', QueueManager.enqueue st tt pl tid p now =
          .ok (generatedTaskId tt tid now, st') ∧
        st'.fifo = st.fifo ∧
        enqueuedTask tt pl tid p now ∈ st'.prio.map Prod.fst ∧
        st'.dead_letter = st.dead_letter) ∧
    (st.fifo.length < st.max_queue_size → p ≤ 0 →
      QueueManager.enqueue st tt pl tid p now =
        .ok (generatedTaskId tt tid now,
             { st with fifo := st.fifo ++ [enqueuedTask tt pl tid p now] })) := by
  refine ⟨enqueue_isOk_iff st tt pl tid p now, ?_, ?_, ?_⟩
  · intro hnot
    rw [enqueue_isOk_iff] at hnot
    unfold QueueManager.enqueue
    rw [if_pos (by omega)]
  · intro hlt hp
    unfold QueueManager.enqueue
    rw [if_neg (by omega), if_pos hp]
    exact ⟨_, rfl, rfl, zadd_mem_fst _ _ _, rfl⟩
  · intro hlt hp
    unfold QueueManager.enqueue
    rw [if_neg (by omega), if_neg (by omega)]
    rfl

/-- Witness for C7's amended theorem: a queue with two tasks already in
the priority lane and a capacity of 3 still accepts a FIFO-lane task. -/
theorem C7_enqueue_capacity_counts_fifo_lane_only_witness :
    (([] : List QueueTask).length < 3 ∧ (0 : Int) ≤ 0) ∧
    (QueueManager.enqueue
        { fifo := [], prio := [(enqueuedTask "a" "p" (some "i1") 2 "t0", -2),
                               (enqueuedTask "a" "p" (some "i2") 1 "t0", -1)],
          dead_letter := [], max_queue_size := 3 }
        "job" "pl" (some "i3") 0 "t1").isOk := by
  constructor
  · exact ⟨by decide, le_refl 0⟩
  · have h := (C7_enqueue_capacity_counts_fifo_lane_only
      { fifo := [], prio := [(enqueuedTask "a" "p" (some "i1") 2 "t0", -2),
                             (enqueuedTask "a" "p" (some "i2") 1 "t0", -1)],
        dead_letter := [], max_queue_size := 3 }
      "job" "pl" (some "i3") 0 "t1").2.2.2 (by decide) (le_refl 0)
    rw [h]
    rfl

/-- C4 (counterexample): a fresh task with `retry_count = 0` and
`max_retries = 1`, after `retry_task` has been called `max_retries` (= 1)
times, has produced zero dead-letter entries and one re-enqueue (the call
returned `True`) — not one dead-letter entry and zero re-enqueues as
claimed; the dead-letter entry only appears on call `max_retries + 1`. -/
theorem C4_counterexample_max_retries_calls_no_dead_letter :
    (QueueManager.retry_task
        { fifo := [], prio := [], dead_letter := [], max_queue_size := 10000 }
        { task_id := "t1", task_type := "job", payload := "p",
          created_at := "t0", retry_count := 0, max_retries := 1,
          priority := 0 } "ts").map
      (fun r => (r.1, r.2.2.dead_letter.length, r.2.2.fifo.length)) =
    .ok (true, 0, 1) := by
  rfl

lemma enqueue_ok_state (st : QueueState) (tt pl : String)
    (tid : Option String) (p : Int) (now : String)
    (h : st.fifo.length < st.max_queue_size) :
    ∃ st', QueueManager.enqueue st tt pl tid p now =
        .ok (generatedTaskId tt tid now, st') ∧
      st'.dead_letter = st.dead_letter ∧
      st'.max_queue_size = st.max_queue_size ∧
      st'.fifo.length ≤ st.fifo.length + 1 ∧
      (enqueuedTask tt pl tid p now ∈ st'.fifo ∨
       enqueuedTask tt pl tid p now ∈ st'.prio.map Prod.fst) := by
  unfold QueueManager.enqueue
  rw [if_neg (by omega)]
  split
  · exact ⟨_, rfl, rfl, rfl, Nat.le_succ _, Or.inr (zadd_mem_fst _ _ _)⟩
  · exact ⟨_, rfl, rfl, rfl, by simp, Or.inl (by simp)⟩

lemma retry_task_requeues (st : QueueState) (task : QueueTask)
    (now : String) (h : task.retry_count < task.max_retries)
    (hcap : st.fifo.length < st.max_queue_size) :
    ∃ st', QueueManager.retry_task st task now =
        .ok (true, { task with retry_count := task.retry_count + 1 }, st') ∧
      st'.dead_letter = st.dead_letter ∧
      st'.max_queue_size = st.max_queue_size ∧
      st'.fifo.length ≤ st.fifo.length + 1 ∧
      (enqueuedTask task.task_type task.payload (some task.task_id)
          (max 0 (task.priority - 1)) now ∈ st'.fifo ∨
       enqueuedTask task.task_type task.payload (some task.task_id)
          (max 0 (task.priority - 1)) now ∈ st'.prio.map Prod.fst) := by
  obtain ⟨st', heq, hdl, hmax, hlen, hmem⟩ :=
    enqueue_ok_state st task.task_type task.payload (some task.task_id)
      (max 0 (task.priority - 1)) now hcap
  refine ⟨st', ?_, hdl, hmax, hlen, hmem⟩
  unfold QueueManager.retry_task
  rw [if_neg (by omega)]
  simp only [heq]

lemma retry_task_exhausted (st : QueueState) (task : QueueTask)
    (now : String) (h : task.max_retries ≤ task.retry_count) :
    QueueManager.retry_task st task now =
      .ok (false, task, { st with dead_letter := st.dead_letter ++ [task] }) := by
  unfold QueueManager.retry_task QueueManager.move_to_dead_letter
  rw [if_pos h]

lemma retryCalls_budget : ∀ (n : Nat) (st : QueueState) (task : QueueTask)
    (now : String), task.retry_count + n = task.max_retries →
    st.fifo.length + n ≤ st.max_queue_size →
    ∃ stf, retryCalls st task now (n + 1) =
        .ok (stf, { task with retry_count := task.max_retries }, n, 1) ∧
      stf.dead_letter =
        st.dead_letter ++ [{ task with retry_count := task.max_retries }] := by
  intro n
  induction n with
  | zero =>
      intro st task now hrc hcap
      have htask : { task with retry_count := task.max_retries } = task := by
        cases task
        simp_all
      refine ⟨{ st with dead_letter := st.dead_letter ++ [task] }, ?_, by
        rw [htask]⟩
      rw [htask]
      have hstep := retry_task_exhausted st task now (by omega)
      show (match QueueManager.retry_task st task now with
        | Except.error e => Except.error e
        | Except.ok (requeued, task', st') =>
            match retryCalls st' task' now 0 with
            | Except.error e => Except.error e
            | Except.ok (stf, tf, re, dl) =>
                Except.ok (stf, tf, (if requeued then 1 else 0) + re,
                     (if requeued then 0 else 1) + dl)) = _
      rw [hstep]
      rfl
  | succ n ih =>
      intro st task now hrc hcap
      obtain ⟨st', heq, hdl, hmax, hlen, -⟩ :=
        retry_task_requeues st task now (by omega) (by omega)
      obtain ⟨stf, hrun, hdlf⟩ :=
        ih st' { task with retry_count := task.retry_count + 1 } now
          (by simpa using by omega) (by omega)
      refine ⟨stf, ?_, by rw [hdlf, hdl]⟩
      show (match QueueManager.retry_task st task now with
        | Except.error e => Except.error e
        | Except.ok (requeued, task', st') =>
            match retryCalls st' task' now (n + 1) with
            | Except.error e => Except.error e
            | Except.ok (stf, tf, re, dl) =>
                Except.ok (stf, tf, (if requeued then 1 else 0) + re,
                     (if requeued then 0 else 1) + dl)) = _
      rw [heq]
      show (match retryCalls st'
          { task with retry_count := task.retry_count + 1 } now (n + 1) with
        | Except.error e => Except.error e
        | Except.ok (stf, tf, re, dl) =>
            Except.ok (stf, tf, (if true then 1 else 0) + re,
                 (if true then 0 else 1) + dl)) = _
      rw [hrun]
      show Except.ok (stf, { task with retry_count := task.max_retries },
        1 + n, 0 + 1) = _
      rw [Nat.add_comm 1 n]

/-- C4 (amended): while `retry_count < max_retries` (and the FIFO lane is
below capacity), `retry_task` increments the task object's `retry_count`,
re-enqueues a copy under the same id at one priority level lower — never
below zero, and with the queued copy's `retry_count` reset to 0 by
`enqueue` — and returns `True`; once `retry_count ≥ max_retries` it
appends the task to the dead-letter lane and returns `False`.
Consequently, calling `retry_task` `max_retries + 1` times on a task with
`retry_count = 0` (each call receiving the task object the previous call
left behind) yields exactly `max_retries` re-enqueues and exactly one
dead-letter entry, produced by the final call; calling it `max_retries`
times yields `max_retries` re-enqueues and no dead-letter entry. -/
theorem C4_retry_budget_exhaustion (st : QueueState) (task : QueueTask)
    (now : String) :
    (task.retry_count < task.max_retries →
      st.fifo.length < st.max_queue_size →
      ∃ st', QueueManager.retry_task st task now =
          .ok (true, { task with retry_count := task.retry_count + 1 }, st') ∧
        st'.dead_letter = st.dead_letter ∧
        (enqueuedTask task.task_type task.payload (some task.task_id)
            (max 0 (task.priority - 1)) now ∈ st'.fifo ∨
         enqueuedTask task.task_type task.payload (some task.task_id)
            (max 0 (task.priority - 1)) now ∈ st'.prio.map Prod.fst)) ∧
    (task.max_retries ≤ task.retry_count →
      QueueManager.retry_task st task now =
        .ok (false, task,
             { st with dead_letter := st.dead_letter ++ [task] })) ∧
    (task.retry_count = 0 →
      st.fifo.length + task.max_retries ≤ st.max_queue_size →
      ∃ stf, retryCalls st task now (task.max_retries + 1) =
          .ok (stf, { task with retry_count := task.max_retries },
               task.max_retries, 1) ∧
        stf.dead_letter =
          st.dead_letter ++ [{ task with retry_count := task.max_retries }]) := by
  refine ⟨?_, retry_task_exhausted st task now, ?_⟩
  · intro h hcap
    obtain ⟨st', heq, hdl, _, _, hmem⟩ := retry_task_requeues st task now h hcap
    exact ⟨st', heq, hdl, hmem⟩
  · intro h0 hcap
    exact retryCalls_budget task.max_retries st task now (by omega) (by omega)

/-- Witness for C4's amended theorem, at three concrete inputs: a task
with `retry_count = 1 < max_retries = 3` is re-enqueued; a task with
`retry_count = 3 = max_retries` is dead-lettered with `False`; and a
fresh task (`retry_count = 0`, `max_retries = 3`) run through four calls
yields three re-enqueues and one dead-letter entry. -/
theorem C4_retry_budget_exhaustion_witness :
    (∃ st', QueueManager.retry_task
          { fifo := [], prio := [], dead_letter := [], max_queue_size := 10 }
          { task_id := "a", task_type := "job", payload := "p",
            created_at := "t0", retry_count := 1, max_retries := 3,
            priority := 2 } "ts" =
        .ok (true,
             { task_id := "a", task_type := "job", payload := "p",
               created_at := "t0", retry_count := 2, max_retries := 3,
               priority := 2 }, st') ∧
      st'.dead_letter = [] ∧
      (enqueuedTask "job" "p" (some "a") 1 "ts" ∈ st'.fifo ∨
       enqueuedTask "job" "p" (some "a") 1 "ts" ∈ st'.prio.map Prod.fst)) ∧
    (QueueManager.retry_task
        { fifo := [], prio := [], dead_letter := [], max_queue_size := 10 }
        { task_id := "b", task_type := "job", payload := "p",
          created_at := "t0", retry_count := 3, max_retries := 3,
          priority := 0 } "ts" =
      .ok (false,
           { task_id := "b", task_type := "job", payload := "p",
             created_at := "t0", retry_count := 3, max_retries := 3,
             priority := 0 },
           { fifo := [], prio := [],
             dead_letter := [{ task_id := "b", task_type := "job",
                               payload := "p", created_at := "t0",
                               retry_count := 3, max_retries := 3,
                               priority := 0 }],
             max_queue_size := 10 })) ∧
    (∃ stf, retryCalls
          { fifo := [], prio := [], dead_letter := [], max_queue_size := 10 }
          { task_id := "c", task_type := "job", payload := "p",
            created_at := "t0", retry_count := 0, max_retries := 3,
            priority := 0 } "ts" 4 =
        .ok (stf,
             { task_id := "c", task_type := "job", payload := "p",
               created_at := "t0", retry_count := 3, max_retries := 3,
               priority := 0 }, 3, 1) ∧
      stf.dead_letter = [{ task_id := "c", task_type := "job",
                           payload := "p", created_at := "t0",
                           retry_count := 3, max_retries := 3,
                           priority := 0 }]) := by
  refine ⟨?_, ?_, ?_⟩
  · exact (C4_retry_budget_exhaustion
      { fifo := [], prio := [], dead_letter := [], max_queue_size := 10 }
      { task_id := "a", task_type := "job", payload := "p",
        created_at := "t0", retry_count := 1, max_retries := 3,
        priority := 2 } "ts").1 (by decide) (by decide)
  · exact (C4_retry_budget_exhaustion
      { fifo := [], prio := [], dead_letter := [], max_queue_size := 10 }
      { task_id := "b", task_type := "job", payload := "p",
        created_at := "t0", retry_count := 3, max_retries := 3,
        priority := 0 } "ts").2.1 (by decide)
  · exact (C4_retry_budget_exhaustion
      { fifo := [], prio := [], dead_letter := [], max_queue_size := 10 }
      { task_id := "c", task_type := "job", payload := "p",
        created_at := "t0", retry_count := 0, max_retries := 3,
        priority := 0 } "ts").2.2 rfl (by decide)

lemma applyOp_closed (s : ProgressStreamer) (op : StreamOp)
    (h : s.closed = true) : applyOp s op = s := by
  cases op <;>
    simp [applyOp, ProgressStreamer.send_progress,
      ProgressStreamer.send_complete, ProgressStreamer.send_error,
      ProgressStreamer.close, h]

lemma runOps_closed (ops : List StreamOp) (s : ProgressStreamer)
    (h : s.closed = true) : runOps s ops = s := by
  induction ops with
  | nil => rfl
  | cons op rest ih =>
      show runOps (applyOp s op) rest = s
      rw [applyOp_closed s op h, ih]

lemma takeWhile_of_all {α : Type} (p : α → Bool) :
    ∀ l : List α, (∀ a ∈ l, p a = true) → l.takeWhile p = l := by
  intro l
  induction l with
  | nil => intro _; rfl
  | cons a rest ih =>
      intro h
      rw [List.takeWhile_cons, h a (by simp)]
      simp [ih (fun b hb => h b (by simp [hb]))]

lemma takeWhile_until_stop {α : Type} (p : α → Bool) :
    ∀ (l : List α) (x : α) (rest : List α), (∀ a ∈ l, p a = true) →
      p x = false → (l ++ x :: rest).takeWhile p = l := by
  intro l
  induction l with
  | nil =>
      intro x rest _ hx
      simp [List.takeWhile_cons, hx]
  | cons a l ih =>
      intro x rest h hx
      rw [List.cons_append, List.takeWhile_cons, h a (by simp)]
      simp [ih x rest (fun b hb => h b (by simp [hb])) hx]

lemma deliveredEvents_open (sid : String) (q : List QEntry) (c : Bool)
    (h : ∀ e ∈ q, e ≠ QEntry.sentinel) :
    deliveredEvents { session_id := sid, queue := q, closed := c } =
      q.filterMap (fun e => match e with
        | .event ev => some ev | .sentinel => none) := by
  unfold deliveredEvents
  rw [takeWhile_of_all _ q (by
    intro a ha
    simpa using h a ha)]

lemma deliveredEvents_closed (sid : String) (q : List QEntry) (c : Bool)
    (h : ∀ e ∈ q, e ≠ QEntry.sentinel) :
    deliveredEvents
        { session_id := sid, queue := q ++ [.sentinel], closed := c } =
      q.filterMap (fun e => match e with
        | .event ev => some ev | .sentinel => none) := by
  unfold deliveredEvents
  rw [takeWhile_until_stop _ q QEntry.sentinel [] (by
    intro a ha
    simpa using h a ha) (by simp)]

lemma noSentinel_append_event (q : List QEntry) (e : ProgressEvent)
    (h : ∀ x ∈ q, x ≠ QEntry.sentinel) :
    ∀ x ∈ q ++ [QEntry.event e], x ≠ QEntry.sentinel := by
  intro x hx
  rcases List.mem_append.1 hx with h1 | h1
  · exact h x h1
  · simp at h1
    simp [h1]

lemma runOps_delivered : ∀ (ops : List StreamOp) (s : ProgressStreamer),
    s.closed = false → (∀ e ∈ s.queue, e ≠ QEntry.sentinel) →
    deliveredEvents (runOps s ops) =
      deliveredEvents s ++ acceptedEvents false ops := by
  intro ops
  induction ops with
  | nil =>
      intro s _ _
      simp [runOps, acceptedEvents]
  | cons op rest ih =>
      intro s hc hq
      cases s with
      | mk sid q c =>
          simp only at hc hq
          subst hc
          cases op with
          | progress n cur sum =>
              have hstep : ProgressStreamer.send_progress ⟨sid, q, false⟩
                  n cur sum =
                  ⟨sid, q ++ [.event (progressEvent n cur sum)], false⟩ := by
                simp [ProgressStreamer.send_progress]
              show deliveredEvents (runOps
                (ProgressStreamer.send_progress ⟨sid, q, false⟩ n cur sum)
                rest) = _
              rw [hstep]
              rw [ih _ rfl (noSentinel_append_event q _ hq)]
              rw [deliveredEvents_open sid q false hq,
                deliveredEvents_open sid _ false
                  (noSentinel_append_event q _ hq)]
              simp [acceptedEvents]
          | complete total fp =>
              have hstep : ProgressStreamer.send_complete ⟨sid, q, false⟩
                  total fp =
                  ⟨sid, (q ++ [.event (completeEvent total fp)]) ++
                    [.sentinel], true⟩ := by
                simp [ProgressStreamer.send_complete, ProgressStreamer.close]
              show deliveredEvents (runOps
                (ProgressStreamer.send_complete ⟨sid, q, false⟩ total fp)
                rest) = _
              rw [hstep]
              rw [runOps_closed rest _ rfl]
              rw [deliveredEvents_closed sid _ true
                (noSentinel_append_event q _ hq)]
              rw [deliveredEvents_open sid q false hq]
              simp [acceptedEvents]
          | error msg =>
              have hstep : ProgressStreamer.send_error ⟨sid, q, false⟩ msg =
                  ⟨sid, (q ++ [.event (errorEvent msg)]) ++
                    [.sentinel], true⟩ := by
                simp [ProgressStreamer.send_error, ProgressStreamer.close]
              show deliveredEvents (runOps
                (ProgressStreamer.send_error ⟨sid, q, false⟩ msg) rest) = _
              rw [hstep]
              rw [runOps_closed rest _ rfl]
              rw [deliveredEvents_closed sid _ true
                (noSentinel_append_event q _ hq)]
              rw [deliveredEvents_open sid q false hq]
              simp [acceptedEvents]
          | close =>
              have hstep : ProgressStreamer.close ⟨sid, q, false⟩ =
                  ⟨sid, q ++ [.sentinel], true⟩ := by
                simp [ProgressStreamer.close]
              show deliveredEvents (runOps
                (ProgressStreamer.close ⟨sid, q, false⟩) rest) = _
              rw [hstep]
              rw [runOps_closed rest _ rfl]
              rw [deliveredEvents_closed sid q true hq]
              rw [deliveredEvents_open sid q false hq]
              simp [acceptedEvents]

lemma accepted_terminal_last : ∀ (ops : List StreamOp) (e : ProgressEvent),
    e ∈ acceptedEvents false ops →
    (e.type = "complete" ∨ e.type = "error") →
    (acceptedEvents false ops).getLast? = some e := by
  intro ops
  induction ops with
  | nil => intro e he _; simp [acceptedEvents] at he
  | cons op rest ih =>
      intro e he hterm
      cases op with
      | progress n cur sum =>
          rw [show acceptedEvents false (.progress n cur sum :: rest) =
              progressEvent n cur sum :: acceptedEvents false rest
            from rfl] at he ⊢
          rcases List.mem_cons.1 he with h1 | h1
          · exfalso
            rcases hterm with ht | ht <;> rw [h1] at ht <;>
              simp [progressEvent] at ht
          · have hlast := ih e h1 hterm
            cases hrest : acceptedEvents false rest with
            | nil => rw [hrest] at h1; simp at h1
            | cons b l =>
                rw [hrest] at hlast
                rw [List.getLast?_cons_cons]
                exact hlast
      | complete total fp =>
          rw [show acceptedEvents false (.complete total fp :: rest) =
              [completeEvent total fp] from rfl] at he ⊢
          simp at he
          simp [he]
      | error msg =>
          rw [show acceptedEvents false (.error msg :: rest) =
              [errorEvent msg] from rfl] at he ⊢
          simp at he
          simp [he]
      | close =>
          rw [show acceptedEvents false (.close :: rest) = [] from rfl] at he
          simp at he

/-- C8: for every trace of producer operations on a session's progress
channel (starting from a freshly created streamer), the events the
consumer receives are exactly the events generated while the channel was
open, in generation order; any `complete` or `error` event among them is
the last event delivered (sending either closes the channel); and every
send or close invoked on a closed channel is a no-op returning the state
unchanged (logged, not an error). -/
theorem C8_progress_channel_ordering_and_termination
    (ops : List StreamOp) (sid : String) :
    deliveredEvents (runOps { session_id := sid } ops) =
      acceptedEvents false ops ∧
    (∀ e ∈ deliveredEvents (runOps { session_id := sid } ops),
      (e.type = "complete" ∨ e.type = "error") →
      (deliveredEvents (runOps { session_id := sid } ops)).getLast? =
        some e) ∧
    (∀ s : ProgressStreamer, s.closed = true →
      (∀ n cur sum, ProgressStreamer.send_progress s n cur sum = s) ∧
      (∀ total fp, ProgressStreamer.send_complete s total fp = s) ∧
      (∀ msg, ProgressStreamer.send_error s msg = s) ∧
      ProgressStreamer.close s = s) := by
  have hrun : deliveredEvents (runOps { session_id := sid } ops) =
      acceptedEvents false ops := by
    have h := runOps_delivered ops { session_id := sid } rfl (by simp)
    simpa [deliveredEvents] using h
  refine ⟨hrun, ?_, ?_⟩
  · intro e he hterm
    rw [hrun] at he ⊢
    exact accepted_terminal_last ops e he hterm
  · intro s hc
    exact ⟨fun n cur sum => by simp [ProgressStreamer.send_progress, hc],
           fun total fp => by simp [ProgressStreamer.send_complete, hc],
           fun msg => by simp [ProgressStreamer.send_error, hc],
           by simp [ProgressStreamer.close, hc]⟩

/-- Witness for C8, at a concrete trace: a `progress` event, then
`complete`, then two further sends that land after the close — delivery
is exactly the two events generated while open, ending at `complete`. -/
theorem C8_progress_channel_ordering_and_termination_witness :
    deliveredEvents (runOps { session_id := "s" }
        [.progress 1 none none, .complete 2 (some "out.json"),
         .progress 3 none none, .error "late"]) =
      acceptedEvents false
        [.progress 1 none none, .complete 2 (some "out.json"),
         .progress 3 none none, .error "late"] ∧
    deliveredEvents (runOps { session_id := "s" }
        [.progress 1 none none, .complete 2 (some "out.json"),
         .progress 3 none none, .error "late"]) =
      [{ type := "progress", bookmarksProcessed := 1,
         currentBookmark := none, summarizationStatus := none,
         error := none },
       { type := "complete", bookmarksProcessed := 2,
         currentBookmark := some [("filePath", "out.json")],
         summarizationStatus := none, error := none }] :=
  ⟨(C8_progress_channel_ordering_and_termination
      [.progress 1 none none, .complete 2 (some "out.json"),
       .progress 3 none none, .error "late"] "s").1,
   by decide⟩

lemma decodeMedia_encode (m : MediaRecord) :
    decodeMedia (encodeMedia m) = some m := by
  cases m with
  | mk t u th => cases th <;> rfl

lemma mapM_decodeMedia : ∀ ms : List MediaRecord,
    (ms.map encodeMedia).mapM decodeMedia = some ms := by
  intro ms
  induction ms with
  | nil => rfl
  | cons m rest ih =>
      rw [List.map_cons, List.mapM_cons, decodeMedia_encode m, ih]
      rfl

lemma decodeRecord_encode (r : BookmarkRecord) :
    decodeRecord (encodeRecord r) = some r := by
  cases r with
  | mk pf pid pu c an aun apu ca md media =>
      cases media with
      | none => rfl
      | some ms =>
          have hm := mapM_decodeMedia ms
          calc decodeRecord (encodeRecord
                ⟨pf, pid, pu, c, an, aun, apu, ca, md, some ms⟩)
              = (match (ms.map encodeMedia).mapM decodeMedia with
                 | some medias =>
                     some ⟨pf, pid, pu, c, an, aun, apu, ca, md, some medias⟩
                 | none => none) := rfl
            _ = some ⟨pf, pid, pu, c, an, aun, apu, ca, md, some ms⟩ := by
                rw [hm]

lemma mapM_decodeRecord : ∀ rs : List BookmarkRecord,
    (rs.map encodeRecord).mapM decodeRecord = some rs := by
  intro rs
  induction rs with
  | nil => rfl
  | cons r rest ih =>
      rw [List.map_cons, List.mapM_cons, decodeRecord_encode r, ih]
      rfl

lemma exportRun_foldl : ∀ (bs : List TwitterBookmark)
    (acc : List BookmarkRecord),
    bs.foldl exportAccumulate acc = acc ++ bs.map transform_bookmark := by
  intro bs
  induction bs with
  | nil => intro acc; simp
  | cons b rest ih =>
      intro acc
      show rest.foldl exportAccumulate (exportAccumulate acc b) = _
      rw [ih (exportAccumulate acc b)]
      simp [exportAccumulate]

/-- C9: an export-mode session accumulates exactly one canonical record
per successfully processed bookmark, in stream order; writing the export
artifact and re-reading it recovers exactly that accumulated list — same
records, same order, no duplicates, no drops — together with a recorded
total equal to the number of processed items. -/
theorem C9_export_artifact_roundtrip (bs : List TwitterBookmark) :
    exportRun bs = bs.map transform_bookmark ∧
    (exportRun bs).length = bs.length ∧
    readArtifact (save_to_file (exportRun bs)) =
      some (exportRun bs, bs.length) := by
  have hmap : exportRun bs = bs.map transform_bookmark := by
    unfold exportRun
    rw [exportRun_foldl bs []]
    rfl
  have hlen : (exportRun bs).length = bs.length := by
    rw [hmap, List.length_map]
  refine ⟨hmap, hlen, ?_⟩
  have h := mapM_decodeRecord (exportRun bs)
  calc readArtifact (save_to_file (exportRun bs))
      = (match ((exportRun bs).map encodeRecord).mapM decodeRecord with
         | some records => some (records, (exportRun bs).length)
         | none => none) := rfl
    _ = some (exportRun bs, (exportRun bs).length) := by rw [h]
    _ = some (exportRun bs, bs.length) := by rw [hlen]

/-- C2: with a valid (non-blank) user id and at most one persisted
`running` row for that user (the data-model invariant), `start_crawl`
fails with the concurrency error exactly when a persisted `running` row
exists for the user whose background task is live in memory.  When the
`running` row is stale — no live in-memory task — it is first marked
`failed` with a completion timestamp and the error message
`"Session was interrupted"`, and the new crawl then starts: the call
returns the new session id with status `started`, a fresh `running` row
for the user is persisted, and the new task is registered.  With no
`running` row at all the crawl simply starts. -/
theorem C2_start_crawl_concurrency_guard (st : CrawlServiceState)
    (request : CrawlStartRequest) (new_sid : String) (now : Nat)
    (hv : pyStrip request.userId ≠ "")
    (_huniq : (st.rows.filter (fun r =>
      r.user_id == pyStrip request.userId && r.status == "running")).length ≤ 1) :
    (CrawlService.start_crawl st request new_sid now =
        .error .concurrentCrawl ↔
      ∃ r, runningRowFor st.rows (pyStrip request.userId) = some r ∧
        liveInMemory st.active r.session_id = true) ∧
    (∀ r, runningRowFor st.rows (pyStrip request.userId) = some r →
      liveInMemory st.active r.session_id = false →
      ∃ st', CrawlService.start_crawl st request new_sid now =
          .ok ({ sessionId := new_sid, status := "started" }, st') ∧
        { r with status := "failed", completed_at := some now,
                 error_message := some "Session was interrupted" } ∈
          st'.rows ∧
        (∃ nr ∈ st'.rows, nr.session_id = new_sid ∧
          nr.user_id = pyStrip request.userId ∧ nr.status = "running") ∧
        (new_sid, false) ∈ st'.active) ∧
    (runningRowFor st.rows (pyStrip request.userId) = none →
      ∃ st', CrawlService.start_crawl st request new_sid now =
        .ok ({ sessionId := new_sid, status := "started" }, st')) := by
  unfold CrawlService.start_crawl CrawlService.is_crawl_running
  rw [if_neg hv]
  cases hrow : runningRowFor st.rows (pyStrip request.userId) with
  | none =>
      refine ⟨?_, ?_, ?_⟩
      · constructor
        · intro h
          simp at h
        · rintro ⟨r, hr, -⟩
          exact absurd hr (by simp)
      · intro r hr
        exact absurd hr (by simp)
      · intro _
        exact ⟨_, rfl⟩
  | some r =>
      cases hlive : liveInMemory st.active r.session_id with
      | true =>
          refine ⟨?_, ?_, ?_⟩
          · simp only [hlive]
            exact ⟨fun _ => ⟨r, rfl, hlive⟩, fun _ => rfl⟩
          · intro r' hr' hlive'
            rw [show r' = r from by simpa using hr'.symm] at hlive'
            rw [hlive] at hlive'
            exact absurd hlive' (by simp)
          · intro h
            simp at h
      | false =>
          simp only [hlive]
          refine ⟨?_, ?_, ?_⟩
          · constructor
            · intro h
              simp at h
            · rintro ⟨r', hr', hlive'⟩
              rw [show r' = r from by simpa using hr'.symm] at hlive'
              rw [hlive] at hlive'
              exact absurd hlive' (by simp)
          · intro r' hr' _
            have hr'r : r' = r := by simpa using hr'.symm
            subst hr'r
            refine ⟨_, rfl, ?_, ?_, ?_⟩
            · refine List.mem_append.2 (Or.inl ?_)
              have hrmem : r' ∈ st.rows :=
                List.mem_of_find?_eq_some hrow
              refine List.mem_map.2 ⟨r', hrmem, ?_⟩
              simp
            · refine ⟨{ session_id := new_sid,
                          user_id := pyStrip request.userId,
                          status := "running", bookmarks_processed := 0,
                          started_at := now, completed_at := none,
                          error_message := none,
                          direct_import := request.directImport,
                          output_file_path := none },
                        List.mem_append.2 (Or.inr (by simp)), rfl, rfl, rfl⟩
            · exact List.mem_append.2 (Or.inr (by simp))
          · intro h
            simp at h

/-- Witness for C2, at two concrete states for the user `"u"`: one with a
live `running` session (start fails with the concurrency error) and one
with a stale `running` row and an empty task registry (the stale row is
marked `failed` and the new crawl starts). -/
theorem C2_start_crawl_concurrency_guard_witness :
    (pyStrip "u" ≠ "" ∧
      CrawlService.start_crawl
          { rows := [{ session_id := "old", user_id := "u",
                       status := "running", bookmarks_processed := 0,
                       started_at := 0, completed_at := none,
                       error_message := none, direct_import := true,
                       output_file_path := none }],
            active := [("old", false)] }
          { userId := "u" } "new" 5 = .error .concurrentCrawl) ∧
    (∃ st', CrawlService.start_crawl
          { rows := [{ session_id := "old", user_id := "u",
                       status := "running", bookmarks_processed := 0,
                       started_at := 0, completed_at := none,
                       error_message := none, direct_import := true,
                       output_file_path := none }],
            active := [] }
          { userId := "u" } "new" 5 =
        .ok ({ sessionId := "new", status := "started" }, st') ∧
      { session_id := "old", user_id := "u", status := "failed",
        bookmarks_processed := 0, started_at := 0,
        completed_at := some 5,
        error_message := some "Session was interrupted",
        direct_import := true, output_file_path := none } ∈ st'.rows ∧
      (∃ nr ∈ st'.rows, nr.session_id = "new" ∧
        nr.user_id = pyStrip "u" ∧ nr.status = "running") ∧
      ("new", false) ∈ st'.active) := by
  constructor
  · refine ⟨by decide, ?_⟩
    exact (C2_start_crawl_concurrency_guard
      { rows := [{ session_id := "old", user_id := "u",
                   status := "running", bookmarks_processed := 0,
                   started_at := 0, completed_at := none,
                   error_message := none, direct_import := true,
                   output_file_path := none }],
        active := [("old", false)] }
      { userId := "u" } "new" 5 (by decide) (by decide)).1.2
      ⟨{ session_id := "old", user_id := "u", status := "running",
         bookmarks_processed := 0, started_at := 0, completed_at := none,
         error_message := none, direct_import := true,
         output_file_path := none }, by decide, by decide⟩
  · exact (C2_start_crawl_concurrency_guard
      { rows := [{ session_id := "old", user_id := "u",
                   status := "running", bookmarks_processed := 0,
                   started_at := 0, completed_at := none,
                   error_message := none, direct_import := true,
                   output_file_path := none }],
        active := [] }
      { userId := "u" } "new" 5 (by decide) (by decide)).2.1
      { session_id := "old", user_id := "u", status := "running",
        bookmarks_processed := 0, started_at := 0, completed_at := none,
        error_message := none, direct_import := true,
        output_file_path := none } (by decide) (by decide)

/-- C6 (failing-input evaluation): a crawl that successfully processed 3
items and is then stopped has an in-memory count of 3, but `stop_crawl`
answers with the session row's `bookmarks_processed`, which is written
only on the successful-completion path of `_run_crawl` — the cancellation
path never updates the row — so the response reports 0 processed items,
not the count observed at the moment of stopping.  The session is still
marked `stopped` with a completion timestamp, and stopping a session id
with no active background task fails with the not-found error, as the
claim says. -/
theorem C6_stop_crawl_reports_zero_processed :
    (sessionRun [⟨1, true⟩, ⟨2, true⟩, ⟨3, true⟩] none
        (.stopped 3)).bookmarks_processed = 3 ∧
    CrawlService.stop_crawl
        { rows := [{ session_id := "s1", user_id := "u",
                     status := "running", bookmarks_processed := 0,
                     started_at := 0, completed_at := none,
                     error_message := none, direct_import := true,
                     output_file_path := none }],
          active := [("s1", false)] } "s1" 9 =
      .ok ({ status := "stopped", bookmarksProcessed := 0 },
           { rows := [{ session_id := "s1", user_id := "u",
                        status := "stopped", bookmarks_processed := 0,
                        started_at := 0, completed_at := some 9,
                        error_message := none, direct_import := true,
                        output_file_path := none }],
             active := [("s1", false)] }) ∧
    CrawlService.stop_crawl
        { rows := [], active := [] } "missing" 9 =
      .error (.notFound "missing") := by
  exact ⟨by decide, rfl, rfl⟩

/-- C1 (failing-input evaluation): the persisted checkpoint cursor is NOT
monotonically non-decreasing on the stream order the code itself
presupposes.  `get_bookmarks` yields newest-first — its resume guard
stops at the first tweet with `id <= since_id`, so on a newest-first
stream a resume works ([3,2,1] since 1 yields [3,2]) while on an
ascending stream it would yield nothing ([1,2,3] since 1 yields []) —
and `save_checkpoint` overwrites the cursor unconditionally.  Hence a
completed session over the fresh newest-first stream 12,11,...,1 whose
item 3 fails processing persists the cursor 2 at its 10th success
(periodic save) and then the cursor 1 at the final save: the persisted
cursor sequence [2, 1] decreases.  The rest of the claim holds at this
input: every saved cursor is a successfully processed item's tweet id
(the failed item 3 never becomes the cursor), and after completion the
stored cursor equals the last successfully processed item's id (1). -/
theorem C1_checkpoint_cursor_not_monotone_on_newest_first_stream :
    ([⟨12, true⟩, ⟨11, true⟩, ⟨10, true⟩, ⟨9, true⟩, ⟨8, true⟩,
      ⟨7, true⟩, ⟨6, true⟩, ⟨5, true⟩, ⟨4, true⟩, ⟨3, false⟩,
      ⟨2, true⟩, ⟨1, true⟩] : List CrawlItem).map CrawlItem.tweet_id =
      getBookmarksStream [12, 11, 10, 9, 8, 7, 6, 5, 4, 3, 2, 1] none ∧
    getBookmarksStream [3, 2, 1] (some 1) = [3, 2] ∧
    getBookmarksStream [1, 2, 3] (some 1) = [] ∧
    (sessionRun [⟨12, true⟩, ⟨11, true⟩, ⟨10, true⟩, ⟨9, true⟩,
      ⟨8, true⟩, ⟨7, true⟩, ⟨6, true⟩, ⟨5, true⟩, ⟨4, true⟩,
      ⟨3, false⟩, ⟨2, true⟩, ⟨1, true⟩] none
      .completed).saves.map Prod.fst = [2, 1] ∧
    ¬ List.Pairwise (· ≤ ·) (cursorTrace none
      (sessionRun [⟨12, true⟩, ⟨11, true⟩, ⟨10, true⟩, ⟨9, true⟩,
        ⟨8, true⟩, ⟨7, true⟩, ⟨6, true⟩, ⟨5, true⟩, ⟨4, true⟩,
        ⟨3, false⟩, ⟨2, true⟩, ⟨1, true⟩] none .completed)) ∧
    (∀ c ∈ (sessionRun [⟨12, true⟩, ⟨11, true⟩, ⟨10, true⟩, ⟨9, true⟩,
        ⟨8, true⟩, ⟨7, true⟩, ⟨6, true⟩, ⟨5, true⟩, ⟨4, true⟩,
        ⟨3, false⟩, ⟨2, true⟩, ⟨1, true⟩] none
        .completed).saves.map Prod.fst,
      c ∈ successIds [⟨12, true⟩, ⟨11, true⟩, ⟨10, true⟩, ⟨9, true⟩,
        ⟨8, true⟩, ⟨7, true⟩, ⟨6, true⟩, ⟨5, true⟩, ⟨4, true⟩,
        ⟨3, false⟩, ⟨2, true⟩, ⟨1, true⟩]) ∧
    (sessionRun [⟨12, true⟩, ⟨11, true⟩, ⟨10, true⟩, ⟨9, true⟩,
      ⟨8, true⟩, ⟨7, true⟩, ⟨6, true⟩, ⟨5, true⟩, ⟨4, true⟩,
      ⟨3, false⟩, ⟨2, true⟩, ⟨1, true⟩] none
      .completed).checkpoint.map CheckpointRow.last_tweet_id = some 1 := by
  decide

end Twitor
